import Mathlib

/-!
Shallow embedding of the authentication core of the Modern-hospital-backend
repository: `app/core/security.py`, `app/core/dependencies.py`,
`app/crud/user.py` and the handlers of `app/api/v1/endpoints/auth.py`.
Pure Python functions become Lean functions; the database session becomes an
explicit list of user rows threaded through the operations; raised exceptions
become `Except` errors carrying the HTTP status code and detail string of the
corresponding `HTTPException`.
-/

set_option autoImplicit false

namespace HospitalAuth

/-- Modelled from the spec: `app/config.py` (the `settings` object imported by
`app/core/security.py`) is not under src/.  Per the configuration surface of
the spec these are the signing secret, the signing algorithm, the access-token
TTL in minutes, the refresh-token TTL in days, the phone min/max digit length
and the default country-code string.  Durations are carried in seconds as
integers, and instants in time as integer timestamps. -/
structure Settings where
  SECRET_KEY : String
  ALGORITHM : String
  ACCESS_TOKEN_EXPIRE_MINUTES : Int
  REFRESH_TOKEN_EXPIRE_DAYS : Int
  PHONE_MIN_LENGTH : Nat
  PHONE_MAX_LENGTH : Nat
  PHONE_COUNTRY_CODE : String
deriving DecidableEq

/-! ## Credential validator (`SecurityUtils`, app/core/security.py) -/

/-- `re.sub(r"[\s\-\(\)\.]+", "", phone)` of `SecurityUtils.validate_phone`:
drop whitespace, hyphens, parentheses and dots. -/
def stripSeparators (phone : String) : String :=
  String.mk (phone.data.filter
    (fun c => !(c.isWhitespace || c == '-' || c == '(' || c == ')' || c == '.')))

/-- `re.match(r"^\+?\d{10,15}$", cleaned_phone)`: an optional leading plus
followed by 10 to 15 digits and nothing else. -/
def phonePatternOk (s : List Char) : Bool :=
  match s with
  | '+' :: rest => rest.all Char.isDigit && decide (10 ≤ rest.length) && decide (rest.length ≤ 15)
  | _ => s.all Char.isDigit && decide (10 ≤ s.length) && decide (s.length ≤ 15)

/-- `SecurityUtils.validate_phone` (app/core/security.py lines 61-79). -/
def validate_phone (st : Settings) (phone : String) : Bool × String :=
  let cleaned := (stripSeparators phone).data
  if !(phonePatternOk cleaned) then
    (false, "Invalid phone number format. Must be " ++ toString st.PHONE_MIN_LENGTH
      ++ "-" ++ toString st.PHONE_MAX_LENGTH ++ " digits")
  else
    let digitsOnly := cleaned.filter Char.isDigit
    if digitsOnly.length < st.PHONE_MIN_LENGTH || digitsOnly.length > st.PHONE_MAX_LENGTH then
      (false, "Phone number must be " ++ toString st.PHONE_MIN_LENGTH
        ++ "-" ++ toString st.PHONE_MAX_LENGTH ++ " digits")
    else
      (true, "Phone number is valid")

/-- `re.sub(r"[^\d\+]", "", phone)` of `SecurityUtils.normalize_phone`:
keep only digits and plus signs. -/
def cleanPhoneChars (l : List Char) : List Char :=
  l.filter (fun c => c.isDigit || c == '+')

/-- Character-list core of `SecurityUtils.normalize_phone`
(app/core/security.py lines 81-94): if the cleaned string does not start with
a plus, drop a single leading 1 when the cleaned string has exactly 11
characters, then prepend the configured country code `cc`. -/
def normalizePhoneChars (cc : List Char) (l : List Char) : List Char :=
  let cleaned := cleanPhoneChars l
  if cleaned.head? = some '+' then cleaned
  else
    let cleaned2 := if cleaned.head? = some '1' ∧ cleaned.length = 11
                    then cleaned.drop 1 else cleaned
    cc ++ cleaned2

/-- `SecurityUtils.normalize_phone`. -/
def normalize_phone (st : Settings) (phone : String) : String :=
  String.mk (normalizePhoneChars st.PHONE_COUNTRY_CODE.data phone.data)

/-- `re.search(r"[A-Z]", password)` of `SecurityUtils.validate_password`. -/
def hasUpper (s : String) : Bool := s.data.any (fun c => 'A' ≤ c && c ≤ 'Z')

/-- `re.search(r"[a-z]", password)`. -/
def hasLower (s : String) : Bool := s.data.any (fun c => 'a' ≤ c && c ≤ 'z')

/-- `re.search(r"\d", password)` (ASCII digits; the subjects fed to it here
are ASCII passwords). -/
def hasDigitChar (s : String) : Bool := s.data.any Char.isDigit

/-- The character class of line 56 of app/core/security.py. -/
def specialChars : List Char :=
  ['!', '@', '#', '$', '%', '^', '&', '*', '(', ')', ',', '.', '?', '\"',
   '{', '}', '|', '<', '>', ':']

/-- `re.search(r"[!@#$%^&*(),.?\":{}|<>]", password)`. -/
def hasSpecial (s : String) : Bool := s.data.any (fun c => specialChars.contains c)

/-- `SecurityUtils.validate_password` (app/core/security.py lines 33-59):
five checks in a fixed order, returning the message of the first failing
check. -/
def validate_password (password : String) : Bool × String :=
  if password.length < 8 then
    (false, "Password must be at least 8 characters long")
  else if !(hasUpper password) then
    (false, "Password must contain at least one uppercase letter")
  else if !(hasLower password) then
    (false, "Password must contain at least one lowercase letter")
  else if !(hasDigitChar password) then
    (false, "Password must contain at least one digit")
  else if !(hasSpecial password) then
    (false, "Password must contain at least one special character")
  else
    (true, "Password is valid")

/-! ## Password hasher

`SecurityUtils.get_password_hash` / `SecurityUtils.verify_password` delegate
to passlib's bcrypt context, which is a third-party library whose code is not
under src/; the hasher is therefore modelled from the spec (section 4.2). -/

/-- UTF-8 encoding of a code point as its list of bytes (as `Nat`s). -/
def utf8EncodeChar (c : Nat) : List Nat :=
  if c < 128 then [c]
  else if c < 2048 then [192 + c / 64, 128 + c % 64]
  else if c < 65536 then [224 + c / 4096, 128 + c / 64 % 64, 128 + c % 64]
  else [240 + c / 262144, 128 + c / 4096 % 64, 128 + c / 64 % 64, 128 + c % 64]

/-- UTF-8 encoding of a string. -/
def utf8Encode (s : String) : List Nat :=
  (s.data.map (fun c => utf8EncodeChar c.toNat)).flatten

/-- Number of bytes of the UTF-8 sequence begun by lead byte `b`. -/
def utf8SeqLen (b : Nat) : Nat :=
  if b < 192 then 1 else if b < 224 then 2 else if b < 240 then 3 else 4

/-- Walk a byte list sequence by sequence and cut it at the first UTF-8
sequence whose continuation bytes are missing.  Fuel recursion so that the
definition evaluates by kernel reduction; one byte is consumed per unit of
fuel, so `l.length` fuel always suffices. -/
def dropIncompleteFuel : Nat → List Nat → List Nat
  | 0, _ => []
  | _, [] => []
  | fuel + 1, b :: rest =>
    let n := utf8SeqLen b
    if rest.length + 1 < n then []
    else b :: (rest.take (n - 1) ++ dropIncompleteFuel fuel (rest.drop (n - 1)))

/-- Discard a trailing incomplete multi-byte sequence. -/
def dropIncomplete (l : List Nat) : List Nat := dropIncompleteFuel l.length l

/-- Modelled from the spec: the byte string that the bcrypt back end actually
processes — the UTF-8 encoding of the secret truncated to at most 72 bytes,
any trailing partial multi-byte sequence discarded (spec section 4.2; the
same truncation also appears in `UserLogin.truncate_password`,
app/schemas/user.py lines 64-73). -/
def bcryptInput (s : String) : List Nat := dropIncomplete ((utf8Encode s).take 72)

/-- Modelled from the spec: a stored digest.  A well-formed bcrypt digest
records the cost parameter, the salt and the (one-way) image of the truncated
secret — collision-freeness of bcrypt is idealised by letting the image be the
truncated byte string itself, since only equality of images is ever observed.
`malformed` stands for any digest string that is not a bcrypt digest
(malformed, or produced by a different algorithm). -/
inductive Digest where
  | bcrypt (cost : Nat) (salt : Nat) (body : List Nat)
  | malformed (raw : String)
deriving DecidableEq

/-- Modelled from the spec: `SecurityUtils.get_password_hash` —
`pwd_context.hash(password)` with bcrypt cost 12 and a fresh `salt` supplied
by the caller (randomness made explicit). -/
def get_password_hash (salt : Nat) (password : String) : Digest :=
  Digest.bcrypt 12 salt (bcryptInput password)

/-- Modelled from the spec: `SecurityUtils.verify_password` —
`pwd_context.verify(plain_password, hashed_password)`: recompute the image of
the candidate under the stored salt and compare; an unrecognisable digest
verifies as `false` rather than raising (spec section 4.2). -/
def verify_password (plain : String) (hashed : Digest) : Bool :=
  match hashed with
  | Digest.bcrypt _ _ body => body == bcryptInput plain
  | Digest.malformed _ => false

/-! ## Exceptions (app/core/exceptions.py)

Each raised exception is embedded as its HTTP status code and detail string;
`valueError` stands for Python `ValueError` (raised by `int` on a non-numeric
string). -/

/-- An exception value as observed by callers. -/
inductive Exc where
  | http (statusCode : Nat) (detail : String)
  | valueError (msg : String)
deriving DecidableEq

/-- `AuthenticationException` (app/core/exceptions.py lines 28-36): HTTP 401. -/
def authenticationException (detail : String) : Exc := Exc.http 401 detail

/-- `ValidationException` (app/core/exceptions.py lines 18-25): HTTP 422. -/
def validationException (detail : String) : Exc := Exc.http 422 detail

/-- `ConflictException` (app/core/exceptions.py lines 59-66): HTTP 409. -/
def conflictException (detail : String) : Exc := Exc.http 409 detail

/-- `str(e)` on an exception: starlette `HTTPException.__str__` renders
`f"{status_code}: {detail}"`; a `ValueError` renders its message. -/
def strOfExc : Exc → String
  | Exc.http s d => toString s ++ ": " ++ d
  | Exc.valueError m => m

/-! ## Token issuer/verifier (`TokenUtils`, app/core/security.py)

`TokenUtils` delegates signing and signature checking to `jose.jwt`, a
third-party library whose code is not under src/; the signature scheme is
therefore modelled from the spec (sections 4.3 and 6): a token is the signed
claim set itself, and a signature is valid exactly when the token was signed
with the secret the verifier supplies. -/

/-- The claim set of an issued token: subject id (as a string), phone, expiry
instant and kind tag. -/
structure TokenPayload where
  sub : String
  phone : String
  exp : Int
  type : String
deriving DecidableEq

/-- The `data` dict passed to the token creation functions: the subject id
rendered with `str`, and the phone. -/
structure TokenData where
  sub : String
  phone : String
deriving DecidableEq

/-- Modelled from the spec: a compact signed token — the claims together with
the secret they were signed with (an idealised unforgeable signature). -/
structure Jwt where
  payload : TokenPayload
  signedWith : String
deriving DecidableEq

/-- Modelled from the spec: `jose.jwt.encode(to_encode, secret, algorithm)`. -/
def jwtEncode (payload : TokenPayload) (secret : String) : Jwt :=
  { payload := payload, signedWith := secret }

/-- Modelled from the spec: `jose.jwt.decode(token, secret, algorithms)` —
validate the signature, then the expiry; the two failure causes stay
distinguishable here (distinct `JWTError` messages). -/
def jwtDecode (tok : Jwt) (secret : String) (now : Int) : Except String TokenPayload :=
  if tok.signedWith ≠ secret then Except.error "Signature verification failed"
  else if tok.payload.exp ≤ now then Except.error "Signature has expired"
  else Except.ok tok.payload

/-- Python truthiness of an `Optional[timedelta]`: `None` and `timedelta(0)`
are falsy, every other delta is truthy. -/
def timedeltaTruthy : Option Int → Bool
  | none => false
  | some d => d != 0

/-- `TokenUtils.create_access_token` (app/core/security.py lines 100-112):
`if expires_delta:` uses the supplied delta only when it is truthy, otherwise
the configured default of `ACCESS_TOKEN_EXPIRE_MINUTES` minutes; then the
claims are extended with the expiry and the kind tag `"access"` and signed. -/
def create_access_token (st : Settings) (now : Int) (data : TokenData)
    (expires_delta : Option Int) : Jwt :=
  let expire : Int :=
    if timedeltaTruthy expires_delta then now + expires_delta.getD 0
    else now + st.ACCESS_TOKEN_EXPIRE_MINUTES * 60
  jwtEncode { sub := data.sub, phone := data.phone, exp := expire, type := "access" }
    st.SECRET_KEY

/-- `TokenUtils.create_refresh_token` (lines 114-121): always the configured
`REFRESH_TOKEN_EXPIRE_DAYS` days, kind tag `"refresh"`. -/
def create_refresh_token (st : Settings) (now : Int) (data : TokenData) : Jwt :=
  jwtEncode { sub := data.sub, phone := data.phone,
              exp := now + st.REFRESH_TOKEN_EXPIRE_DAYS * 86400, type := "refresh" }
    st.SECRET_KEY

/-- `TokenUtils.decode_token` (lines 123-134): any `JWTError` is normalised to
`HTTPException(401, "Invalid token")`. -/
def decode_token (st : Settings) (tok : Jwt) (now : Int) : Except Exc TokenPayload :=
  match jwtDecode tok st.SECRET_KEY now with
  | Except.ok payload => Except.ok payload
  | Except.error _ => Except.error (Exc.http 401 "Invalid token")

/-- `TokenUtils.create_tokens` (lines 136-149): both tokens over
a dict of the subject id rendered with `str` and the phone, plus the literal token type
`"bearer"`. -/
def create_tokens (st : Settings) (now : Int) (user_id : Nat) (phone : String) :
    Jwt × Jwt × String :=
  let data : TokenData := { sub := toString user_id, phone := phone }
  (create_access_token st now data none, create_refresh_token st now data, "bearer")

/-- The verification-with-expected-kind pattern shared by
`get_current_user` (app/core/dependencies.py lines 21-29) and
`refresh_token` (app/api/v1/endpoints/auth.py lines 115-119):
`decode_token` followed by the check that the embedded kind tag equals the
expected kind, a mismatch raising 401 `"Invalid token type"`. -/
def verify_token (st : Settings) (tok : Jwt) (now : Int) (expected : String) :
    Except Exc TokenPayload :=
  match decode_token st tok now with
  | Except.error e => Except.error e
  | Except.ok payload =>
    if payload.type ≠ expected then Except.error (Exc.http 401 "Invalid token type")
    else Except.ok payload

/-! ## User rows and CRUD (app/db/models.py, app/crud/user.py) -/

/-- A row of the `users` table (app/db/models.py lines 13-34).  The
`created_at`/`updated_at` timestamp columns and the relationship attributes
play no part in the claims and are left out. -/
structure User where
  id : Nat
  phone : String
  hashed_password : Digest
  full_name : Option String
  email : Option String
  is_active : Bool
  is_admin : Bool
  is_doctor : Bool
deriving DecidableEq

/-- The user store: the rows of the `users` table in insertion order. -/
abbrev Db := List User

/-- `UserCreate` (app/schemas/user.py lines 46-56).  The optional
Bangladeshi patient-profile fields (`nid`, `date_of_birth`, ...) are inert
strings copied through by the persistence layer and are left out. -/
structure UserCreate where
  phone : String
  password : String
  full_name : Option String
  email : Option String
deriving DecidableEq

/-- `CRUDBase.get` (app/crud/base.py lines 18-21): first row with the given
primary key. -/
def crudGet (db : Db) (id : Nat) : Option User :=
  db.find? (fun u => u.id == id)

/-- `CRUDUser.get_by_phone` (app/crud/user.py lines 16-21): normalize the
query phone, then first row whose stored phone equals the normalized form. -/
def get_by_phone (st : Settings) (db : Db) (phone : String) : Option User :=
  db.find? (fun u => u.phone == normalize_phone st phone)

/-- `CRUDUser.create` (app/crud/user.py lines 28-56): a new row with the
normalized phone and the hash of the password.  The fresh primary key
`nextId` and the salt are supplied by the caller (the database engine and the
random source made explicit); `is_active`/`is_admin`/`is_doctor` take the
column defaults of app/db/models.py lines 22-24. -/
def crudCreate (st : Settings) (salt : Nat) (db : Db) (nextId : Nat)
    (obj_in : UserCreate) : User × Db :=
  let u : User :=
    { id := nextId
      phone := normalize_phone st obj_in.phone
      hashed_password := get_password_hash salt obj_in.password
      full_name := obj_in.full_name
      email := obj_in.email
      is_active := true
      is_admin := false
      is_doctor := false }
  (u, db ++ [u])

/-- `CRUDUser.authenticate` (app/crud/user.py lines 58-67): look the user up
by phone, then verify the password against the stored hash. -/
def authenticate (st : Settings) (db : Db) (phone password : String) : Option User :=
  match get_by_phone st db phone with
  | none => none
  | some u =>
    if !(verify_password password u.hashed_password) then none
    else some u

/-- `CRUDUser.change_password` (app/crud/user.py lines 69-83): verify the old
password; on success overwrite the stored hash with the hash of the new
password and commit (the row with the user's id is updated in place). -/
def change_password_crud (salt : Nat) (db : Db) (user : User)
    (old_password new_password : String) : Bool × User × Db :=
  if !(verify_password old_password user.hashed_password) then (false, user, db)
  else
    let user2 := { user with hashed_password := get_password_hash salt new_password }
    (true, user2, db.map (fun v => if v.id == user.id then user2 else v))

/-! ## Dependencies (app/core/dependencies.py) -/

/-- Python `int` applied to the `sub` claim (app/core/dependencies.py
line 22): the subjects issued by this system are `str(user_id)` for a
non-negative id, so the embedding parses a non-empty all-digit decimal string
and models every other string as a raised `ValueError` (`none`). -/
def parseIntSub (s : String) : Option Nat :=
  if s.data ≠ [] ∧ s.data.all Char.isDigit then
    some (s.data.foldl (fun n c => n * 10 + (c.toNat - 48)) 0)
  else none

/-- `get_current_user` (app/core/dependencies.py lines 11-53): missing token,
then `decode_token`, then `int(payload.get("sub"))` (a `ValueError` is caught
and mapped to 401 `"Invalid token"`), then the kind-tag check, then the user
lookup by id, then the active check.  An inactive user is rejected with
status 403, not 401. -/
def get_current_user (st : Settings) (token : Option Jwt) (db : Db) (now : Int) :
    Except Exc User :=
  match token with
  | none => Except.error (Exc.http 401 "Not authenticated")
  | some tok =>
    match decode_token st tok now with
    | Except.error e => Except.error e
    | Except.ok payload =>
      match parseIntSub payload.sub with
      | none => Except.error (Exc.http 401 "Invalid token")
      | some user_id =>
        if payload.type ≠ "access" then Except.error (Exc.http 401 "Invalid token type")
        else
          match crudGet db user_id with
          | none => Except.error (Exc.http 401 "User not found")
          | some u =>
            if !u.is_active then Except.error (Exc.http 403 "User is inactive")
            else Except.ok u

/-- `get_current_admin_user` (app/core/dependencies.py lines 56-63), applied
to the user already resolved by `get_current_user`. -/
def get_current_admin_user (current_user : User) : Except Exc User :=
  if !current_user.is_admin then Except.error (Exc.http 403 "Admin access required")
  else Except.ok current_user

/-! ## Auth endpoints (app/api/v1/endpoints/auth.py)

Handlers return the possibly-updated user store paired with the outcome; an
error outcome leaves the store untouched. -/

/-- `register` (app/api/v1/endpoints/auth.py lines 32-71): validate the phone,
validate the password, reject when a user with the same normalized phone
exists (`ErrorMessages.USER_ALREADY_EXISTS`), otherwise create the user and
issue both tokens. -/
def register (st : Settings) (salt : Nat) (now : Int) (db : Db) (nextId : Nat)
    (user_in : UserCreate) : Db × Except Exc (Jwt × Jwt × String × User) :=
  let vp := validate_phone st user_in.phone
  if !vp.1 then (db, Except.error (validationException vp.2))
  else
    let vw := validate_password user_in.password
    if !vw.1 then (db, Except.error (validationException vw.2))
    else
      match get_by_phone st db user_in.phone with
      | some _ =>
        (db, Except.error (conflictException "User with this phone number already exists"))
      | none =>
        let created := crudCreate st salt db nextId user_in
        let t := create_tokens st now created.1.id created.1.phone
        (created.2, Except.ok (t.1, t.2.1, t.2.2, created.1))

/-- `login` (app/api/v1/endpoints/auth.py lines 74-101): authenticate by
phone and password (`ErrorMessages.INVALID_CREDENTIALS` on failure), reject
inactive accounts, issue both tokens.  The 72-byte login-schema truncation of
`UserLogin.truncate_password` re-encodes to the same `bcryptInput` bytes and
is subsumed by the hasher's truncation. -/
def login (st : Settings) (now : Int) (db : Db) (phone password : String) :
    Except Exc (Jwt × Jwt × String × User) :=
  match authenticate st db phone password with
  | none => Except.error (authenticationException "Invalid phone number or password")
  | some u =>
    if !u.is_active then Except.error (authenticationException "User account is inactive")
    else
      let t := create_tokens st now u.id u.phone
      Except.ok (t.1, t.2.1, t.2.2, u)

/-- The body of the `try` block of `refresh_token`
(app/api/v1/endpoints/auth.py lines 114-135): decode, check the kind tag is
`"refresh"`, parse the subject id (`int` raising `ValueError` on a
non-numeric subject), look the user up, reject a missing or inactive user,
and issue a fresh access token with the default TTL. -/
def refreshInner (st : Settings) (now : Int) (db : Db) (tok : Jwt) :
    Except Exc (Jwt × String) :=
  match decode_token st tok now with
  | Except.error e => Except.error e
  | Except.ok payload =>
    if payload.type ≠ "refresh" then
      Except.error (authenticationException "Invalid token type")
    else
      match parseIntSub payload.sub with
      | none =>
        Except.error (Exc.valueError ("invalid literal for int() with base 10: " ++ payload.sub))
      | some user_id =>
        match crudGet db user_id with
        | none => Except.error (authenticationException "User not found or inactive")
        | some u =>
          if !u.is_active then
            Except.error (authenticationException "User not found or inactive")
          else
            Except.ok
              (create_access_token st now { sub := toString u.id, phone := u.phone } none,
               "bearer")

/-- `refresh_token` (app/api/v1/endpoints/auth.py lines 104-137): the blanket
`except Exception as e` re-raises every failure of the body as
`AuthenticationException(detail=str(e))`. -/
def refresh_token_route (st : Settings) (now : Int) (db : Db) (tok : Jwt) :
    Except Exc (Jwt × String) :=
  match refreshInner st now db tok with
  | Except.ok r => Except.ok r
  | Except.error e => Except.error (authenticationException (strOfExc e))

/-- `change_password` (app/api/v1/endpoints/auth.py lines 148-181):
confirmation match, new-password strength, then `CRUDUser.change_password`;
a wrong old password yields 401 `"Invalid current password"`; on success the
store holds the replaced hash and `SuccessMessages.PASSWORD_CHANGED` is
returned. -/
def change_password_route (salt : Nat) (db : Db) (current_user : User)
    (old_password new_password confirm_password : String) : Db × Except Exc String :=
  if new_password ≠ confirm_password then
    (db, Except.error (validationException "New passwords do not match"))
  else
    let vw := validate_password new_password
    if !vw.1 then (db, Except.error (validationException vw.2))
    else
      let r := change_password_crud salt db current_user old_password new_password
      if !r.1 then (db, Except.error (authenticationException "Invalid current password"))
      else (r.2.2, Except.ok "Password changed successfully")

/-- `logout` (app/api/v1/endpoints/auth.py lines 184-187): resolve the
current user and return `SuccessMessages.LOGOUT_SUCCESS`; nothing is written
and no token is invalidated. -/
def logout_route (st : Settings) (token : Option Jwt) (db : Db) (now : Int) :
    Db × Except Exc String :=
  match get_current_user st token db now with
  | Except.error e => (db, Except.error e)
  | Except.ok _ => (db, Except.ok "Logout successful")

/-! ## Concrete instances used by the witnesses -/

/-- A concrete configuration: Bangladeshi country code, default TTLs. -/
def demoSettings : Settings :=
  { SECRET_KEY := "demo-secret-key"
    ALGORITHM := "HS256"
    ACCESS_TOKEN_EXPIRE_MINUTES := 30
    REFRESH_TOKEN_EXPIRE_DAYS := 7
    PHONE_MIN_LENGTH := 10
    PHONE_MAX_LENGTH := 15
    PHONE_COUNTRY_CODE := "+88" }

/-- A stored, active, non-admin user whose password is `Abcd1234!`. -/
def demoActiveUser : User :=
  { id := 1
    phone := "+881234567890"
    hashed_password := get_password_hash 0 "Abcd1234!"
    full_name := none
    email := none
    is_active := true
    is_admin := false
    is_doctor := false }

/-- The same account soft-disabled. -/
def demoInactiveUser : User := { demoActiveUser with is_active := false }

/-- An active administrator account. -/
def demoAdminUser : User := { demoActiveUser with id := 2, is_admin := true }

/-- An access token for subject 1, issued at instant 0 with the default TTL. -/
def demoAccessTok : Jwt :=
  create_access_token demoSettings 0 { sub := "1", phone := "+881234567890" } none

/-- An access token for subject 2 (the administrator). -/
def demoAdminTok : Jwt :=
  create_access_token demoSettings 0 { sub := "2", phone := "+881234567890" } none

/-- A registration request whose phone normalizes to `+881234567890`. -/
def demoUserCreate : UserCreate :=
  { phone := "123-456-7890"
    password := "Abcd1234!"
    full_name := none
    email := none }

/-! ## Helper lemmas -/

/-- A list whose head is a plus and whose characters are all digits or plus
signs is a fixed point of normalization. -/
theorem normalizePhoneChars_fixed (cc m : List Char)
    (hm1 : m.head? = some '+')
    (hm2 : ∀ c ∈ m, (c.isDigit || c == '+') = true) :
    normalizePhoneChars cc m = m := by
  unfold normalizePhoneChars cleanPhoneChars
  rw [List.filter_eq_self.mpr hm2]
  simp [hm1]

/-- With a country code that starts with a plus and holds only digits and
plus signs, the output of normalization has a plus at its head and holds only
digits and plus signs. -/
theorem normalizePhoneChars_output (cc l : List Char)
    (h1 : cc.head? = some '+')
    (h2 : ∀ c ∈ cc, (c.isDigit || c == '+') = true) :
    (normalizePhoneChars cc l).head? = some '+' ∧
    (∀ c ∈ normalizePhoneChars cc l, (c.isDigit || c == '+') = true) := by
  unfold normalizePhoneChars
  by_cases hc : (cleanPhoneChars l).head? = some '+'
  · rw [if_pos hc]
    exact ⟨hc, fun c hcmem => (List.mem_filter.mp hcmem).2⟩
  · rw [if_neg hc]
    constructor
    · rw [List.head?_append, h1]
      rfl
    · intro c hcmem
      rcases List.mem_append.mp hcmem with hL | hR
      · exact h2 c hL
      · have hmem : c ∈ cleanPhoneChars l := by
          by_cases hd : (cleanPhoneChars l).head? = some '1' ∧ (cleanPhoneChars l).length = 11
          · rw [if_pos hd] at hR
            exact List.drop_subset 1 _ hR
          · rwa [if_neg hd] at hR
        exact (List.mem_filter.mp hmem).2

/-- Normalization at the character-list level is idempotent when the country
code starts with a plus and holds only digits and plus signs. -/
theorem normalizePhoneChars_idem (cc l : List Char)
    (h1 : cc.head? = some '+')
    (h2 : ∀ c ∈ cc, (c.isDigit || c == '+') = true) :
    normalizePhoneChars cc (normalizePhoneChars cc l) = normalizePhoneChars cc l :=
  normalizePhoneChars_fixed cc (normalizePhoneChars cc l)
    (normalizePhoneChars_output cc l h1 h2).1
    (normalizePhoneChars_output cc l h1 h2).2

/-! ## Claims -/

/-- Claim C1, as frozen, is refuted at a concrete input: the 73-character
secret of all `a`s and the secret that replaces its last character by `b`
differ in one character, yet `verify(other, hash(secret))` is `true`, because
both truncate to the same 72-byte prefix.  The claim's clause "for every
other secret differing from it by at least one character,
verify(other, hash(secret)) == false" therefore fails. -/
theorem C1_counterexample :
    String.mk (List.replicate 73 'a') ≠ String.mk (List.replicate 72 'a' ++ ['b']) ∧
    verify_password (String.mk (List.replicate 72 'a' ++ ['b']))
      (get_password_hash 0 (String.mk (List.replicate 73 'a'))) = true := by
  exact ⟨by decide, by decide⟩

/-- Claim C1 (amended): for every secret,
`verify(secret, hash(secret)) = true`, including secrets whose UTF-8
encoding exceeds 72 bytes; and for every other secret whose truncated
72-byte prefix differs from the secret's truncated prefix,
`verify(other, hash(secret)) = false`. -/
theorem C1_holds (salt : Nat) (secret other : String)
    (hdiff : bcryptInput other ≠ bcryptInput secret) :
    verify_password secret (get_password_hash salt secret) = true ∧
    verify_password other (get_password_hash salt secret) = false := by
  constructor
  · simp [verify_password, get_password_hash]
  · simp only [verify_password, get_password_hash, beq_eq_false_iff_ne, ne_eq]
    exact fun h => hdiff h.symm

/-- Witness for C1 at a concrete secret and a concrete differing other. -/
theorem C1_witness :
    bcryptInput "Abcd1234?" ≠ bcryptInput "Abcd1234!" ∧
    (verify_password "Abcd1234!" (get_password_hash 5 "Abcd1234!") = true ∧
     verify_password "Abcd1234?" (get_password_hash 5 "Abcd1234!") = false) :=
  ⟨by decide, C1_holds 5 "Abcd1234!" "Abcd1234?" (by decide)⟩

/-- Claim C3, as frozen, is refuted at a concrete input: `"Abcd1234"`
satisfies the minimum-8/uppercase/lowercase/digit rules, yet
`validate_password` rejects it, because the code also requires a special
character (app/core/security.py line 56). -/
theorem C3_counterexample :
    (validate_password "Abcd1234").1 = false ∧
    (validate_password "Abcd1234").2 = "Password must contain at least one special character" := by
  exact ⟨by decide, by decide⟩

/-- Claim C3 (amended): strength validation checks the rules in a fixed
order — at least 8 characters, an uppercase letter, a lowercase letter, a
digit, and a special character — and on failure reports only the first unmet
rule; a password satisfying all five rules passes (the special-character
requirement is mandatory in this implementation, not optional). -/
theorem C3_holds (pw : String) :
    ((validate_password pw).1 = true ↔
      (8 ≤ pw.length ∧ hasUpper pw = true ∧ hasLower pw = true ∧
       hasDigitChar pw = true ∧ hasSpecial pw = true)) ∧
    (pw.length < 8 →
      validate_password pw = (false, "Password must be at least 8 characters long")) ∧
    (8 ≤ pw.length → hasUpper pw = false →
      validate_password pw = (false, "Password must contain at least one uppercase letter")) ∧
    (8 ≤ pw.length → hasUpper pw = true → hasLower pw = false →
      validate_password pw = (false, "Password must contain at least one lowercase letter")) ∧
    (8 ≤ pw.length → hasUpper pw = true → hasLower pw = true → hasDigitChar pw = false →
      validate_password pw = (false, "Password must contain at least one digit")) ∧
    (8 ≤ pw.length → hasUpper pw = true → hasLower pw = true → hasDigitChar pw = true →
      hasSpecial pw = false →
      validate_password pw = (false, "Password must contain at least one special character")) ∧
    (8 ≤ pw.length → hasUpper pw = true → hasLower pw = true → hasDigitChar pw = true →
      hasSpecial pw = true → validate_password pw = (true, "Password is valid")) := by
  unfold validate_password
  by_cases h1 : pw.length < 8 <;> by_cases h2 : hasUpper pw <;> by_cases h3 : hasLower pw <;>
    by_cases h4 : hasDigitChar pw <;> by_cases h5 : hasSpecial pw <;>
      simp_all <;> rw [if_neg (by omega)]

/-- Witness for C3: a concrete password satisfying all five rules passes. -/
theorem C3_witness : (validate_password "Abcd1234!").1 = true :=
  (C3_holds "Abcd1234!").1.mpr (by decide)

/-- Claim C6: phone normalization is idempotent on every phone that passes
validation, for any configured country code that begins with a plus sign and
holds only digits and plus signs (the international prefix form the spec
prescribes). -/
theorem C6_holds (st : Settings) (p : String)
    (hcc1 : st.PHONE_COUNTRY_CODE.data.head? = some '+')
    (hcc2 : ∀ c ∈ st.PHONE_COUNTRY_CODE.data, (c.isDigit || c == '+') = true)
    (hvalid : (validate_phone st p).1 = true) :
    normalize_phone st (normalize_phone st p) = normalize_phone st p := by
  unfold normalize_phone
  exact congrArg String.mk
    (normalizePhoneChars_idem st.PHONE_COUNTRY_CODE.data p.data hcc1 hcc2)

/-- Witness for C6 at the demo configuration and a concrete valid phone. -/
theorem C6_witness :
    normalize_phone demoSettings (normalize_phone demoSettings "123-456-7890")
      = normalize_phone demoSettings "123-456-7890" :=
  C6_holds demoSettings "123-456-7890" (by decide) (by decide) (by decide)

/-- Claim C7: password verification is a total boolean function — for every
plaintext and stored digest it returns `true` or `false` and never raises;
in particular a digest that is not a well-formed bcrypt digest (malformed, or
produced by a different algorithm) verifies as `false`. -/
theorem C7_holds (plain : String) (d : Digest) :
    (verify_password plain d = true ∨ verify_password plain d = false) ∧
    (∀ raw, verify_password plain (Digest.malformed raw) = false) := by
  refine ⟨?_, fun raw => rfl⟩
  cases h : verify_password plain d
  · exact Or.inr rfl
  · exact Or.inl rfl

/-- Replacing, in a store, the row that carries `u`'s id by a row `u2` that
still satisfies the search predicate makes the search return `u2`, provided
the search used to return `u` and `u`'s id identifies it uniquely. -/
theorem find?_map_replaceById (db : Db) (u u2 : User) (p : User → Bool)
    (hfind : db.find? p = some u)
    (huniq : ∀ v ∈ db, v.id = u.id → v = u)
    (hp2 : p u2 = true) :
    (db.map (fun v => if v.id == u.id then u2 else v)).find? p = some u2 := by
  induction db with
  | nil => simp at hfind
  | cons h t ih =>
    by_cases ph : p h = true
    · have hu : h = u := by
        rw [List.find?_cons, ph] at hfind
        exact Option.some.inj hfind
      subst hu
      simp only [List.map_cons, beq_self_eq_true, if_pos]
      rw [List.find?_cons, hp2]
    · have phf : p h = false := Bool.eq_false_iff.mpr ph
      have hfind' : t.find? p = some u := by
        rwa [List.find?_cons, phf] at hfind
      have hne : h.id ≠ u.id := by
        intro hid
        have hhu : h = u := huniq h (List.mem_cons_self h t) hid
        rw [hhu] at ph
        exact ph (List.find?_some hfind')
      simp only [List.map_cons]
      rw [if_neg (by simpa using hne), List.find?_cons, phf]
      exact ih hfind' (fun v hv hvid => huniq v (List.mem_cons_of_mem h hv) hvid)

/-- Claim C2 (counterexample): an access token issued at instant 0 with
`expires_delta = 0` verifies successfully at instant 1 — strictly after its
supposed zero time to live — because `if expires_delta:` treats the zero
delta as absent and stamps the default 30-minute expiry.  The claim's clause
that a token issued with ttl=0 fails with `AuthenticationError` therefore
fails. -/
theorem C2_counterexample :
    verify_token demoSettings
        (create_access_token demoSettings 0 { sub := "1", phone := "+881234567890" } (some 0))
        1 "access"
      = Except.ok { sub := "1", phone := "+881234567890", exp := 1800, type := "access" } := rfl

/-- Claim C2 (amended): verification with an expected kind succeeds and
returns the embedded payload exactly when the signature verifies under the
configured secret, the expiry instant is in the future and the kind tag
equals the expected kind; every failure is an `AuthenticationError`
(HTTP 401); issuance embeds the original subject id and phone; but a token
issued with `expires_delta = 0` receives the default TTL (the zero delta is
falsy in Python), so instead of failing immediately it verifies until the
default expiry. -/
theorem C2_holds (st : Settings) (tok : Jwt) (now : Int) (expected : String) :
    (verify_token st tok now expected = Except.ok tok.payload ↔
      (tok.signedWith = st.SECRET_KEY ∧ now < tok.payload.exp ∧
       tok.payload.type = expected)) ∧
    (∀ e, verify_token st tok now expected = Except.error e →
      ∃ d, e = authenticationException d) ∧
    (∀ (t0 : Int) (data : TokenData),
      (create_access_token st t0 data (some 0)).payload.exp
        = t0 + st.ACCESS_TOKEN_EXPIRE_MINUTES * 60) ∧
    (∀ (t0 : Int) (data : TokenData) (delta : Option Int),
      (create_access_token st t0 data delta).payload.sub = data.sub ∧
      (create_access_token st t0 data delta).payload.phone = data.phone ∧
      (create_refresh_token st t0 data).payload.sub = data.sub ∧
      (create_refresh_token st t0 data).payload.phone = data.phone) := by
  refine ⟨?_, ?_, fun t0 data => rfl, fun t0 data delta => ⟨rfl, rfl, rfl, rfl⟩⟩
  · constructor
    · intro h
      unfold verify_token decode_token jwtDecode at h
      by_cases hsig : tok.signedWith = st.SECRET_KEY
      · by_cases hexp : tok.payload.exp ≤ now
        · rw [if_neg (by simp [hsig]), if_pos hexp] at h
          simp at h
        · by_cases htype : tok.payload.type = expected
          · exact ⟨hsig, by omega, htype⟩
          · rw [if_neg (by simp [hsig]), if_neg hexp] at h
            simp [htype] at h
      · rw [if_pos (by simp [hsig])] at h
        simp at h
    · rintro ⟨hsig, hexp, htype⟩
      unfold verify_token decode_token jwtDecode
      rw [if_neg (by simp [hsig]), if_neg (by omega)]
      simp [htype]
  · intro e he
    unfold verify_token decode_token jwtDecode at he
    by_cases hsig : tok.signedWith = st.SECRET_KEY <;>
      by_cases hexp : tok.payload.exp ≤ now <;>
        by_cases htype : tok.payload.type = expected <;>
          simp_all [authenticationException] <;> exact ⟨_, he.symm⟩

/-- Witness for C2 at a concrete settings, token and verification instant. -/
theorem C2_witness :
    verify_token demoSettings demoAccessTok 1 "access" = Except.ok demoAccessTok.payload :=
  (C2_holds demoSettings demoAccessTok 1 "access").1.mpr (by decide)

/-- Claim C4 (counterexample): with a valid access token for a stored but
inactive user, `get_current_user` fails with HTTP 403 "User is inactive"
(app/core/dependencies.py lines 47-51), which is not an
`AuthenticationError` (HTTP 401) as the claim states. -/
theorem C4_counterexample :
    get_current_user demoSettings (some demoAccessTok) [demoInactiveUser] 1
      = Except.error (Exc.http 403 "User is inactive") ∧
    Exc.http 403 "User is inactive" ≠ authenticationException "User is inactive" := by
  exact ⟨rfl, by decide⟩

/-- Claim C4 (amended): under a presented access token whose signature,
expiry, subject and kind tag pass, `require_authenticated` fails with
`AuthenticationError` (401) when the resolved identity is absent, fails with
an HTTP 403 error — an authorization-style rejection, not
`AuthenticationError` — when the identity is inactive, and otherwise returns
the identity; `require_admin` fails with `AuthorizationError` (403) exactly
when the administrator flag is false, and otherwise returns the identity. -/
theorem C4_holds (st : Settings) (tok : Jwt) (db : Db) (now : Int) (uid : Nat)
    (hsig : tok.signedWith = st.SECRET_KEY)
    (hexp : now < tok.payload.exp)
    (hsub : parseIntSub tok.payload.sub = some uid)
    (htype : tok.payload.type = "access") :
    (crudGet db uid = none →
      get_current_user st (some tok) db now
        = Except.error (authenticationException "User not found")) ∧
    (∀ u, crudGet db uid = some u → u.is_active = false →
      get_current_user st (some tok) db now
        = Except.error (Exc.http 403 "User is inactive")) ∧
    (∀ u, crudGet db uid = some u → u.is_active = true →
      get_current_user st (some tok) db now = Except.ok u) ∧
    (∀ u : User, u.is_admin = false →
      get_current_admin_user u = Except.error (Exc.http 403 "Admin access required")) ∧
    (∀ u : User, u.is_admin = true → get_current_admin_user u = Except.ok u) := by
  have hdec : decode_token st tok now = Except.ok tok.payload := by
    unfold decode_token jwtDecode
    rw [if_neg (by simp [hsig]), if_neg (by omega)]
  refine ⟨?_, ?_, ?_, ?_, ?_⟩
  · intro hnone
    simp [get_current_user, hdec, hsub, htype, hnone, authenticationException]
  · intro u hu hina
    simp [get_current_user, hdec, hsub, htype, hu, hina]
  · intro u hu hact
    simp [get_current_user, hdec, hsub, htype, hu, hact]
  · intro u hadm
    simp [get_current_admin_user, hadm]
  · intro u hadm
    simp [get_current_admin_user, hadm]

/-- Witness for C4: a valid token for a stored active administrator passes
both gates. -/
theorem C4_witness :
    get_current_user demoSettings (some demoAdminTok) [demoActiveUser, demoAdminUser] 1
      = Except.ok demoAdminUser ∧
    get_current_admin_user demoAdminUser = Except.ok demoAdminUser := by
  have h := C4_holds demoSettings demoAdminTok [demoActiveUser, demoAdminUser] 1 2
    (by decide) (by decide) (by decide) (by decide)
  exact ⟨h.2.2.1 demoAdminUser (by decide) (by decide),
         h.2.2.2.2 demoAdminUser (by decide)⟩

/-- Claim C5: for a registration request that passes phone and password
validation, if the normalized form of the requested phone equals the stored
canonical phone of an existing identity then registration fails with
`ConflictError` and the store is unchanged; otherwise it succeeds, the
stored phone is the normalized form of the input, and a subsequent lookup by
the original input phone (which normalizes before comparing) finds exactly
the new identity. -/
theorem C5_holds (st : Settings) (salt : Nat) (now : Int) (db : Db) (nextId : Nat)
    (user_in : UserCreate)
    (hph : (validate_phone st user_in.phone).1 = true)
    (hpw : (validate_password user_in.password).1 = true) :
    ((∃ u ∈ db, u.phone = normalize_phone st user_in.phone) →
      register st salt now db nextId user_in
        = (db, Except.error (conflictException "User with this phone number already exists"))) ∧
    ((∀ u ∈ db, u.phone ≠ normalize_phone st user_in.phone) →
      (register st salt now db nextId user_in).1
          = db ++ [(crudCreate st salt db nextId user_in).1] ∧
      ((register st salt now db nextId user_in).2
          = Except.ok
              ((create_tokens st now nextId (normalize_phone st user_in.phone)).1,
               (create_tokens st now nextId (normalize_phone st user_in.phone)).2.1,
               "bearer",
               (crudCreate st salt db nextId user_in).1)) ∧
      (crudCreate st salt db nextId user_in).1.phone = normalize_phone st user_in.phone ∧
      get_by_phone st (register st salt now db nextId user_in).1 user_in.phone
          = some (crudCreate st salt db nextId user_in).1) := by
  constructor
  · intro hex
    have hsome : (get_by_phone st db user_in.phone).isSome = true := by
      apply List.find?_isSome.mpr
      obtain ⟨u, hu, hphone⟩ := hex
      exact ⟨u, hu, by simp [hphone]⟩
    obtain ⟨u, hfind⟩ := Option.isSome_iff_exists.mp hsome
    simp [register, hph, hpw, hfind]
  · intro hnone
    have hfind : get_by_phone st db user_in.phone = none := by
      apply List.find?_eq_none.mpr
      intro u hu
      simp [hnone u hu]
    refine ⟨?_, ?_, rfl, ?_⟩
    · simp [register, hph, hpw, hfind, crudCreate]
    · simp [register, hph, hpw, hfind, crudCreate, create_tokens]
    · have hnone2 :
          db.find? (fun u => u.phone == normalize_phone st user_in.phone) = none := hfind
      simp only [register, hph, hpw, hfind]
      simp only [Bool.not_true, Bool.false_eq_true, if_false, get_by_phone, crudCreate,
        List.find?_append, hnone2, Option.none_or]
      rw [List.find?_cons]
      simp

/-- Witness for C5: registering the demo request over a store already
holding the same canonical phone is rejected with the conflict error and
leaves the store unchanged. -/
theorem C5_witness :
    register demoSettings 0 0 [demoActiveUser] 2 demoUserCreate
      = ([demoActiveUser],
         Except.error (conflictException "User with this phone number already exists")) :=
  (C5_holds demoSettings 0 0 [demoActiveUser] 2 demoUserCreate (by decide) (by decide)).1
    ⟨demoActiveUser, by decide, by decide⟩

/-- Claim C8 (counterexample): a change-password request whose new password
equals the old one succeeds (old verifies, confirmation matches, policy
holds), yet a subsequent login with the old password still succeeds, so the
claim's clause "a login with the old password fails" does not hold for every
successful change-password request. -/
theorem C8_counterexample :
    (change_password_route 1 [demoActiveUser] demoActiveUser
        "Abcd1234!" "Abcd1234!" "Abcd1234!").2 = Except.ok "Password changed successfully" ∧
    authenticate demoSettings
        (change_password_route 1 [demoActiveUser] demoActiveUser
          "Abcd1234!" "Abcd1234!" "Abcd1234!").1
        "+881234567890" "Abcd1234!"
      = some { demoActiveUser with hashed_password := get_password_hash 1 "Abcd1234!" } := by
  exact ⟨rfl, rfl⟩

/-- Claim C8 (amended): after a change-password request succeeds — the old
password verifies, the new password equals its confirmation and satisfies
the strength policy — and provided the new password's truncated byte
encoding differs from the old one's, the stored hash is replaced so that a
subsequent login with the new password succeeds and a login with the old
password fails. -/
theorem C8_holds (st : Settings) (salt : Nat) (db : Db) (u : User)
    (old_password new_password confirm_password : String)
    (hold : verify_password old_password u.hashed_password = true)
    (hconf : new_password = confirm_password)
    (hpol : (validate_password new_password).1 = true)
    (hdiff : bcryptInput new_password ≠ bcryptInput old_password)
    (hfind : get_by_phone st db u.phone = some u)
    (huniq : ∀ v ∈ db, v.id = u.id → v = u) :
    (change_password_route salt db u old_password new_password confirm_password).2
        = Except.ok "Password changed successfully" ∧
    (change_password_route salt db u old_password new_password confirm_password).1
        = db.map (fun v => if v.id == u.id then
            { u with hashed_password := get_password_hash salt new_password } else v) ∧
    authenticate st
        (change_password_route salt db u old_password new_password confirm_password).1
        u.phone new_password
        = some { u with hashed_password := get_password_hash salt new_password } ∧
    authenticate st
        (change_password_route salt db u old_password new_password confirm_password).1
        u.phone old_password = none := by
  subst hconf
  have hroute :
      change_password_route salt db u old_password new_password new_password
        = (db.map (fun v => if v.id == u.id then
            { u with hashed_password := get_password_hash salt new_password } else v),
           Except.ok "Password changed successfully") := by
    simp [change_password_route, change_password_crud, hpol, hold]
  have hfind2 :
      get_by_phone st
        (db.map (fun v => if v.id == u.id then
          { u with hashed_password := get_password_hash salt new_password } else v))
        u.phone
        = some { u with hashed_password := get_password_hash salt new_password } := by
    have hp : (fun v : User => v.phone == normalize_phone st u.phone) u = true :=
      @List.find?_some User (fun v => v.phone == normalize_phone st u.phone) u db hfind
    exact find?_map_replaceById db u
      { u with hashed_password := get_password_hash salt new_password }
      (fun v => v.phone == normalize_phone st u.phone) hfind huniq hp
  refine ⟨by rw [hroute], by rw [hroute], ?_, ?_⟩
  · rw [hroute]
    simp only [authenticate, hfind2]
    simp [verify_password, get_password_hash]
  · rw [hroute]
    simp only [authenticate, hfind2]
    simp [verify_password, get_password_hash, beq_eq_false_iff_ne]
    exact hdiff

/-- Witness for C8 at a concrete store, user and fresh password. -/
theorem C8_witness :
    (change_password_route 3 [demoActiveUser] demoActiveUser
        "Abcd1234!" "Wxyz5678$" "Wxyz5678$").2 = Except.ok "Password changed successfully" ∧
    authenticate demoSettings
        (change_password_route 3 [demoActiveUser] demoActiveUser
          "Abcd1234!" "Wxyz5678$" "Wxyz5678$").1
        demoActiveUser.phone "Wxyz5678$"
        = some { demoActiveUser with hashed_password := get_password_hash 3 "Wxyz5678$" } ∧
    authenticate demoSettings
        (change_password_route 3 [demoActiveUser] demoActiveUser
          "Abcd1234!" "Wxyz5678$" "Wxyz5678$").1
        demoActiveUser.phone "Abcd1234!" = none := by
  have h := C8_holds demoSettings 3 [demoActiveUser] demoActiveUser
    "Abcd1234!" "Wxyz5678$" "Wxyz5678$"
    (by decide) rfl (by decide) (by decide) (by decide) (by decide)
  exact ⟨h.1, h.2.2.1, h.2.2.2⟩

/-- Claim C9: the refresh handler's blanket `except Exception` re-raises
every failure of its body — wrong kind tag, unknown or inactive user,
non-numeric subject, or any token-decoding failure — as
`AuthenticationException` with the stringified original exception as detail,
so refresh surfaces no other error type. -/
theorem C9_holds (st : Settings) (now : Int) (db : Db) (tok : Jwt) :
    (∃ r, refreshInner st now db tok = Except.ok r ∧
          refresh_token_route st now db tok = Except.ok r) ∨
    (∃ e, refreshInner st now db tok = Except.error e ∧
          refresh_token_route st now db tok
            = Except.error (authenticationException (strOfExc e))) := by
  cases h : refreshInner st now db tok with
  | ok r =>
    refine Or.inl ⟨r, rfl, ?_⟩
    simp [refresh_token_route, h]
  | error e =>
    refine Or.inr ⟨e, rfl, ?_⟩
    simp [refresh_token_route, h]

/-- Claim C10: logout writes nothing — the user store it returns is the one
it was given — and therefore any token resolves through `get_current_user`
after a logout exactly as it did before; token verification itself depends
only on the token, the configured secret and the current instant. -/
theorem C10_holds (st : Settings) (token : Option Jwt) (db : Db) (now : Int) :
    (logout_route st token db now).1 = db ∧
    (∀ (tok2 : Option Jwt) (now2 : Int),
      get_current_user st tok2 (logout_route st token db now).1 now2
        = get_current_user st tok2 db now2) := by
  have hdb : (logout_route st token db now).1 = db := by
    cases h : get_current_user st token db now with
    | ok u => simp [logout_route, h]
    | error e => simp [logout_route, h]
  exact ⟨hdb, fun tok2 now2 => by rw [hdb]⟩

end HospitalAuth
